import Mathlib

/-!
A shallow embedding of `src/main.py`, a FastAPI demo service with four
route handlers (`root`, `health_check`, `get_status`, `get_metrics`), a
registered 404 exception handler (`not_found_handler`), and one piece of
module-level process state (`start_time`).

Modelling conventions:
* Wall-clock instants and durations are rationals (`ℚ`); Python's float
  arithmetic on the small uptime values involved is modelled by exact
  rational arithmetic (real-number semantics).
* Python's float floor division `//` is `pyFloorDiv` (the floor of the
  exact quotient, returned as a number), and float `%` is `pyMod`
  (`a - b * ⌊a / b⌋`, sign following the divisor, as in Python).
* Python's `f"{x:.0f}"` formatting rounds to the nearest integer with
  ties to even; `roundHalfEven` captures that rounding.  (For negative
  values rounding to zero Python renders `"-0"`; no claim touches that
  corner and the uptimes considered are non-negative.)
* `os.getenv(name, default)` returns the default only when the variable
  is absent; an environment is a partial map `String → Option String`.
* ISO-8601 timestamp strings carry the instant they render; the
  rendering itself is irrelevant to every property below, so timestamp
  fields store the instant (`ℚ`) directly.
* The HTTP layer is modelled after FastAPI/Starlette routing: a matched
  route returns 200 with the handler's body; an unmatched path makes the
  router raise `HTTPException(404)`, which the exception middleware
  dispatches to the handler registered for status 404.  An exception
  handler must return a response; if the handler itself raises, the new
  exception is not dispatched again — it propagates to the outermost
  server-error middleware, which answers 500 (`internalServerError`).
-/

namespace DemoApp

/-- Python `//` on floats: the floor of the exact quotient, as a number. -/
def pyFloorDiv (a b : ℚ) : ℚ := ((a / b).floor : ℤ)

/-- Python `%` on floats: `a - b * ⌊a / b⌋` (sign follows the divisor). -/
def pyMod (a b : ℚ) : ℚ := a - b * (a / b).floor

/-- The rounding performed by Python's `"{x:.0f}"` format: nearest
integer, ties to even. -/
def roundHalfEven (q : ℚ) : ℤ :=
  if q - q.floor < 1/2 then q.floor
  else if 1/2 < q - q.floor then q.floor + 1
  else if q.floor % 2 = 0 then q.floor else q.floor + 1

/-- Ambient runtime context a request executes in: the current wall
clock, the process environment, and the host/interpreter description
strings (`sys.version`, `sys.version_info`, `platform.platform()`,
`platform.architecture()[0]`). -/
structure RuntimeCtx where
  now : ℚ
  env : String → Option String
  sysVersion : String
  versionMajor : ℕ
  versionMinor : ℕ
  versionMicro : ℕ
  hostPlatform : String
  hostArchitecture : String

/-- Module-level process state: `start_time = datetime.now()` captured
once at import time (src/main.py line 44). -/
structure AppState where
  start_time : ℚ
deriving DecidableEq

/-- Process initialization: capture the start time. -/
def initState (t0 : ℚ) : AppState := ⟨t0⟩

/-- Response model of `GET /` (class `AppInfoResponse`). -/
structure AppInfoResponse where
  message : String
  version : String
  features : List String
  endpoints : List (String × String)
  tech_stack : List String
deriving DecidableEq

/-- Response model of `GET /health` (class `HealthResponse`);
`timestamp` stores the instant rendered by `isoformat()`. -/
structure HealthResponse where
  status : String
  timestamp : ℚ
  uptime : ℚ
  environment : String
  python_version : String
deriving DecidableEq

/-- Response model of `GET /api/status` (class `StatusResponse`). -/
structure StatusResponse where
  service : String
  status : String
  timestamp : ℚ
  version : String
  python_version : String
  platform : String
deriving DecidableEq

/-- Response dict of `GET /api/metrics`, with the two nested dicts
(`memory_info`, `python_info`) flattened into prefixed fields. -/
structure MetricsResponse where
  uptime_seconds : ℚ
  uptime_human : String
  memory_info_available : String
  memory_info_used : String
  requests_total : String
  python_info_version : String
  python_info_platform : String
  python_info_architecture : String
deriving DecidableEq

/-- The `detail` payload of an `HTTPException`: either a plain string
(Starlette's own `"Not Found"`) or the structured dict raised by
`not_found_handler`. -/
structure ErrorDetail where
  error : String
  available_endpoints : List String
  documentation : String
deriving DecidableEq

inductive ExcDetail where
  | str (s : String)
  | obj (d : ErrorDetail)
deriving DecidableEq

/-- The value raised by `fastapi.HTTPException`. -/
structure HTTPException where
  status_code : ℕ
  detail : ExcDetail
deriving DecidableEq

/-- An incoming HTTP request (only the path matters to this app). -/
structure Request where
  path : String
deriving DecidableEq

/-- Handler of `GET /` (src/main.py lines 47-75): a fixed literal. -/
def root (_c : RuntimeCtx) (_st : AppState) : AppInfoResponse :=
  { message := "🚀 Professional Python CI/CD Demo API"
    version := "1.0.0"
    features :=
      [ "✅ Automated Testing with Pytest"
      , "🐳 Docker Containerization"
      , "🔍 Code Quality with Black & Flake8"
      , "🛡️ Security Scanning with Bandit"
      , "📊 Health Monitoring"
      , "📖 Auto-generated API Documentation"
      , "🚀 FastAPI Async Performance" ]
    endpoints :=
      [ ("docs", "/docs"), ("health", "/health")
      , ("status", "/api/status"), ("metrics", "/api/metrics") ]
    tech_stack :=
      [ "Python 3.11+", "FastAPI", "Uvicorn"
      , "Pydantic", "Docker", "GitHub Actions" ] }

/-- Handler of `GET /health` (src/main.py lines 78-89). -/
def health_check (c : RuntimeCtx) (st : AppState) : HealthResponse :=
  { status := "healthy"
    timestamp := c.now
    uptime := c.now - st.start_time
    environment := (c.env "ENVIRONMENT").getD "development"
    python_version := c.sysVersion }

/-- Handler of `GET /api/status` (src/main.py lines 92-101). -/
def get_status (c : RuntimeCtx) (_st : AppState) : StatusResponse :=
  { service := "python-demo-app"
    status := "running"
    timestamp := c.now
    version := "1.0.0"
    python_version :=
      Nat.repr c.versionMajor ++ "." ++ Nat.repr c.versionMinor ++ "."
        ++ Nat.repr c.versionMicro
    platform := c.hostPlatform }

/-- The hours subexpression `uptime_seconds // 3600` under `:.0f`
formatting (src/main.py line 111). -/
def metricsHours (u : ℚ) : ℤ := roundHalfEven (pyFloorDiv u 3600)

/-- The minutes subexpression `(uptime_seconds % 3600) // 60` under
`:.0f` formatting (src/main.py line 111). -/
def metricsMinutes (u : ℚ) : ℤ := roundHalfEven (pyFloorDiv (pyMod u 3600) 60)

/-- The seconds subexpression `uptime_seconds % 60` under `:.0f`
formatting (src/main.py line 111): no floor division here, so the
rounding is applied to a fractional value. -/
def metricsSeconds (u : ℚ) : ℤ := roundHalfEven (pyMod u 60)

/-- The f-string of src/main.py line 111. -/
def uptimeHuman (u : ℚ) : String :=
  toString (metricsHours u) ++ "h " ++ toString (metricsMinutes u) ++ "m "
    ++ toString (metricsSeconds u) ++ "s"

/-- Handler of `GET /api/metrics` (src/main.py lines 104-122). -/
def get_metrics (c : RuntimeCtx) (st : AppState) : MetricsResponse :=
  { uptime_seconds := c.now - st.start_time
    uptime_human := uptimeHuman (c.now - st.start_time)
    memory_info_available := "simulation"
    memory_info_used := "simulation"
    requests_total := "simulation"
    python_info_version := c.sysVersion
    python_info_platform := c.hostPlatform
    python_info_architecture := c.hostArchitecture }

/-- The exception handler registered for status 404 (src/main.py lines
125-134).  The Python function unconditionally raises; it has no return
path, hence the `Empty` success type. -/
def not_found_handler (_request : Request) (_exc : HTTPException) :
    Except HTTPException Empty :=
  .error
    { status_code := 404
      detail := .obj
        { error := "Endpoint not found"
          available_endpoints :=
            ["/", "/health", "/api/status", "/api/metrics", "/docs"]
          documentation := "/docs" } }

/-- A JSON-bearing HTTP body at the transport level. -/
inductive Body where
  | appInfo (r : AppInfoResponse)
  | health (r : HealthResponse)
  | status (r : StatusResponse)
  | metrics (r : MetricsResponse)
  | docsPage
deriving DecidableEq

/-- What the server ultimately sends for one request.
`internalServerError` is the plain 500 produced by the outermost
server-error middleware when an exception escapes all handlers. -/
inductive ServerResult where
  | response (status : ℕ) (body : Body)
  | internalServerError
deriving DecidableEq

/-- One full request/response cycle of the application, after
FastAPI/Starlette: the four user routes plus the framework-served
documentation routes answer 200; any other path makes the router raise
`HTTPException(404, "Not Found")`, the exception middleware calls the
registered status-404 handler (`not_found_handler`), and because that
handler raises instead of returning a response, the new exception
propagates past the middleware and the server answers a plain 500. -/
def handle (c : RuntimeCtx) (st : AppState) (path : String) :
    AppState × ServerResult :=
  if path = "/" then (st, .response 200 (.appInfo (root c st)))
  else if path = "/health" then (st, .response 200 (.health (health_check c st)))
  else if path = "/api/status" then (st, .response 200 (.status (get_status c st)))
  else if path = "/api/metrics" then (st, .response 200 (.metrics (get_metrics c st)))
  else if path = "/docs" ∨ path = "/redoc" ∨ path = "/openapi.json"
      ∨ path = "/docs/oauth2-redirect" then
    (st, .response 200 .docsPage)
  else
    match not_found_handler ⟨path⟩ ⟨404, .str "Not Found"⟩ with
    | .ok r => r.elim
    | .error _ => (st, .internalServerError)

/-- A process lifetime serving a sequence of requests in order, threading
the module-level state through. -/
def serveTrace (st : AppState) : List (RuntimeCtx × String) →
    AppState × List ServerResult
  | [] => (st, [])
  | r :: rs =>
    let out := handle r.1 st r.2
    let rest := serveTrace out.1 rs
    (rest.1, out.2 :: rest.2)

/-- The uptime figure a response reports, when it reports one: the
`uptime` field of `/health` and the `uptime_seconds` field of
`/api/metrics`. -/
def uptimeOf : ServerResult → Option ℚ
  | .response _ (.health r) => some r.uptime
  | .response _ (.metrics r) => some r.uptime_seconds
  | _ => none

/-! Concrete runtime contexts used to instantiate the theorems below. -/

/-- A context whose clock reads 59.5 seconds. -/
def ctxHalfMinute : RuntimeCtx :=
  { now := 119/2, env := fun _ => none, sysVersion := "3.11.5 (main)"
    versionMajor := 3, versionMinor := 11, versionMicro := 5
    hostPlatform := "Linux-6.1", hostArchitecture := "64bit" }

/-- A context whose clock reads 61 hours. -/
def ctxManyHours : RuntimeCtx :=
  { ctxHalfMinute with now := 219600 }

/-- A context with an empty process environment, clock at 5 seconds. -/
def ctxNoEnv : RuntimeCtx :=
  { ctxHalfMinute with now := 5 }

/-- A context where the variable ENVIRONMENT is set to the empty
string. -/
def ctxEmptyEnv : RuntimeCtx :=
  { ctxHalfMinute with now := 5, env := fun _ => some "" }

/-- A two-request lifetime: `/health` at clock 5, then `/api/metrics` at
clock 59.5. -/
def traceTwo : List (RuntimeCtx × String) :=
  [(ctxNoEnv, "/health"), (ctxHalfMinute, "/api/metrics")]

/-- The derivation the spec describes for `uptime_human`: integer
division of the uptime into components, `h = uptime div 3600`,
`m = (uptime mod 3600) div 60`, `s = uptime mod 60`.  This definition
follows the spec's words (not the source) and exists only to be compared
against `uptimeHuman`, which follows the source. -/
def uptimeHumanIntegerDivision (u : ℚ) : String :=
  toString (u.floor / 3600) ++ "h " ++ toString (u.floor % 3600 / 60) ++ "m "
    ++ toString (u.floor % 60) ++ "s"

/-! Arithmetic facts about the embedded Python operations. -/

theorem ratFloor_eq (q : ℚ) : q.floor = ⌊q⌋ :=
  (Rat.floor_def' q).trans Rat.floor_def.symm

theorem pyFloorDiv_eq (a b : ℚ) : pyFloorDiv a b = ((⌊a / b⌋ : ℤ) : ℚ) := by
  unfold pyFloorDiv; rw [ratFloor_eq]

theorem pyMod_eq (a b : ℚ) : pyMod a b = a - b * ⌊a / b⌋ := by
  unfold pyMod; rw [ratFloor_eq]

theorem pyMod_nonneg (a b : ℚ) (hb : 0 < b) : 0 ≤ pyMod a b := by
  rw [pyMod_eq]
  have h1 : ((⌊a / b⌋ : ℤ) : ℚ) ≤ a / b := Int.floor_le (a / b)
  have h2 : ((⌊a / b⌋ : ℤ) : ℚ) * b ≤ a := (le_div_iff₀ hb).1 h1
  nlinarith

theorem pyMod_lt (a b : ℚ) (hb : 0 < b) : pyMod a b < b := by
  rw [pyMod_eq]
  have h1 : a / b < (⌊a / b⌋ : ℤ) + 1 := Int.lt_floor_add_one (a / b)
  have h2 : a < ((⌊a / b⌋ : ℚ) + 1) * b := (div_lt_iff₀ hb).1 h1
  nlinarith

theorem roundHalfEven_eq (q : ℚ) :
    roundHalfEven q =
      if q - (⌊q⌋ : ℤ) < 1/2 then ⌊q⌋
      else if 1/2 < q - (⌊q⌋ : ℤ) then ⌊q⌋ + 1
      else if ⌊q⌋ % 2 = 0 then ⌊q⌋ else ⌊q⌋ + 1 := by
  unfold roundHalfEven; rw [ratFloor_eq]

theorem roundHalfEven_intCast (n : ℤ) : roundHalfEven ((n : ℤ) : ℚ) = n := by
  rw [roundHalfEven_eq, Int.floor_intCast, if_pos]
  rw [sub_self]; norm_num

theorem roundHalfEven_nonneg (q : ℚ) (h : 0 ≤ q) : 0 ≤ roundHalfEven q := by
  have h0 : 0 ≤ ⌊q⌋ := Int.floor_nonneg.2 h
  rw [roundHalfEven_eq]
  split_ifs <;> omega

theorem roundHalfEven_le_floor_add_one (q : ℚ) : roundHalfEven q ≤ ⌊q⌋ + 1 := by
  rw [roundHalfEven_eq]
  split_ifs <;> omega

theorem roundHalfEven_eq_sixty (q : ℚ) (h1 : 119/2 ≤ q) (h2 : q < 60) :
    roundHalfEven q = 60 := by
  have hf : ⌊q⌋ = 59 := by
    rw [Int.floor_eq_iff]
    constructor
    · push_cast; linarith
    · push_cast; linarith
  rw [roundHalfEven_eq, hf]
  have hge : (1:ℚ)/2 ≤ q - ((59 : ℤ) : ℚ) := by push_cast; linarith
  split_ifs with ha hb hc
  · linarith
  · rfl
  · omega
  · rfl

theorem metricsHours_eq (u : ℚ) : metricsHours u = ⌊u / 3600⌋ := by
  unfold metricsHours
  rw [pyFloorDiv_eq, roundHalfEven_intCast]

theorem metricsMinutes_eq (u : ℚ) : metricsMinutes u = ⌊pyMod u 3600 / 60⌋ := by
  unfold metricsMinutes
  rw [pyFloorDiv_eq, roundHalfEven_intCast]

theorem metricsHours_nonneg (u : ℚ) (h : 0 ≤ u) : 0 ≤ metricsHours u := by
  rw [metricsHours_eq]
  exact Int.floor_nonneg.2 (by positivity)

theorem metricsMinutes_nonneg (u : ℚ) : 0 ≤ metricsMinutes u := by
  rw [metricsMinutes_eq]
  exact Int.floor_nonneg.2
    (div_nonneg (pyMod_nonneg u 3600 (by norm_num)) (by norm_num))

theorem metricsMinutes_le (u : ℚ) : metricsMinutes u ≤ 59 := by
  rw [metricsMinutes_eq]
  have h0 := pyMod_lt u 3600 (by norm_num)
  have h : pyMod u 3600 / 60 < ((60 : ℤ) : ℚ) := by
    rw [div_lt_iff₀ (by norm_num : (0:ℚ) < 60)]
    push_cast
    linarith
  have := Int.floor_lt.2 h
  omega

theorem metricsSeconds_nonneg (u : ℚ) : 0 ≤ metricsSeconds u :=
  roundHalfEven_nonneg _ (pyMod_nonneg u 60 (by norm_num))

theorem metricsSeconds_le (u : ℚ) : metricsSeconds u ≤ 60 := by
  have h : ⌊pyMod u 60⌋ ≤ 59 := by
    have h1 : pyMod u 60 < ((60 : ℤ) : ℚ) := by
      have := pyMod_lt u 60 (by norm_num)
      push_cast
      linarith
    have := Int.floor_lt.2 h1
    omega
  have := roundHalfEven_le_floor_add_one (pyMod u 60)
  unfold metricsSeconds
  omega

theorem metricsSeconds_eq_sixty (u : ℚ) (h : 119/2 ≤ pyMod u 60) :
    metricsSeconds u = 60 :=
  roundHalfEven_eq_sixty _ h (pyMod_lt u 60 (by norm_num))

theorem int_toString_natCast (n : ℕ) : toString ((n : ℕ) : ℤ) = Nat.repr n := rfl

/-! Facts about the request/response cycle and process traces. -/

theorem handle_fst (c : RuntimeCtx) (st : AppState) (p : String) :
    (handle c st p).1 = st := by
  unfold handle
  split_ifs <;> rfl

theorem serveTrace_fst (st : AppState) (rs : List (RuntimeCtx × String)) :
    (serveTrace st rs).1 = st := by
  induction rs generalizing st with
  | nil => rfl
  | cons r rs ih => simp [serveTrace, handle_fst, ih]

theorem serveTrace_snd (st : AppState) (rs : List (RuntimeCtx × String)) :
    (serveTrace st rs).2 = rs.map fun r => (handle r.1 st r.2).2 := by
  induction rs generalizing st with
  | nil => rfl
  | cons r rs ih => simp [serveTrace, handle_fst, ih]

theorem uptimeOf_handle (c : RuntimeCtx) (st : AppState) (p : String) (q : ℚ)
    (h : uptimeOf (handle c st p).2 = some q) : q = c.now - st.start_time := by
  unfold handle at h
  split_ifs at h <;>
      simp [uptimeOf, health_check, get_metrics, not_found_handler] at h <;>
    exact h.symm

theorem pairwise_filterMap_rel {α β : Type} {R : α → α → Prop} {S : β → β → Prop}
    (f : α → Option β)
    (hf : ∀ a b, R a b → ∀ x, f a = some x → ∀ y, f b = some y → S x y) :
    ∀ l : List α, l.Pairwise R → (l.filterMap f).Pairwise S := by
  intro l hl
  induction hl with
  | nil => simp
  | cons ha _ ih =>
    rename_i a l _
    cases hfa : f a with
    | none => simpa [List.filterMap_cons, hfa] using ih
    | some x =>
      rw [List.filterMap_cons, hfa]
      refine List.Pairwise.cons ?_ ih
      intro y hy
      obtain ⟨b, hb, hfb⟩ := List.mem_filterMap.1 hy
      exact hf a b (ha b hb) x hfa y hfb

/-! Claims. -/

/-- C1 (counterexample): at uptime 59.5 s the service renders
`"0h 0m 60s"`, while the claimed derivation by integer division yields
`"0h 0m 59s"`, so `uptime_human` is not derived by integer division
alone. -/
theorem uptime_human_not_by_integer_division :
    (get_metrics ctxHalfMinute (initState 0)).uptime_seconds = 119/2 ∧
    (get_metrics ctxHalfMinute (initState 0)).uptime_human = "0h 0m 60s" ∧
    uptimeHumanIntegerDivision
        ((get_metrics ctxHalfMinute (initState 0)).uptime_seconds)
      = "0h 0m 59s" ∧
    (get_metrics ctxHalfMinute (initState 0)).uptime_human
      ≠ uptimeHumanIntegerDivision
          ((get_metrics ctxHalfMinute (initState 0)).uptime_seconds) := by
  refine ⟨?_, ?_, ?_, ?_⟩ <;> with_unfolding_all decide

/-- C1 (amended): for every `GET /api/metrics` with a clock at or after
start-up, `uptime_human` matches the pattern `"{h}h {m}m {s}s"` with
each component a non-negative integer string, where `h` and `m` are
obtained by integer (floor) division as claimed, but `s` is
`uptime mod 60` rounded to the nearest integer (ties to even), so
`m ≤ 59` and `s ≤ 60`. -/
theorem get_metrics_uptime_human_pattern (c : RuntimeCtx) (st : AppState)
    (h : st.start_time ≤ c.now) :
    ∃ hh mm ss : ℕ,
      (get_metrics c st).uptime_human
          = Nat.repr hh ++ "h " ++ Nat.repr mm ++ "m " ++ Nat.repr ss ++ "s" ∧
      ((hh : ℤ) = ⌊(get_metrics c st).uptime_seconds / 3600⌋) ∧
      ((mm : ℤ) = ⌊pyMod ((get_metrics c st).uptime_seconds) 3600 / 60⌋) ∧
      ((ss : ℤ) = roundHalfEven (pyMod ((get_metrics c st).uptime_seconds) 60)) ∧
      mm ≤ 59 ∧ ss ≤ 60 := by
  have e1 : (get_metrics c st).uptime_seconds = c.now - st.start_time := rfl
  have e2 : (get_metrics c st).uptime_human
      = uptimeHuman (c.now - st.start_time) := rfl
  rw [e1, e2]
  set u := c.now - st.start_time with hu
  have hu0 : 0 ≤ u := sub_nonneg.2 h
  have hH : 0 ≤ metricsHours u := metricsHours_nonneg u hu0
  have hM : 0 ≤ metricsMinutes u := metricsMinutes_nonneg u
  have hS : 0 ≤ metricsSeconds u := metricsSeconds_nonneg u
  refine ⟨(metricsHours u).toNat, (metricsMinutes u).toNat,
    (metricsSeconds u).toNat, ?_, ?_, ?_, ?_, ?_, ?_⟩
  · unfold uptimeHuman
    rw [← int_toString_natCast (metricsHours u).toNat,
      ← int_toString_natCast (metricsMinutes u).toNat,
      ← int_toString_natCast (metricsSeconds u).toNat,
      Int.toNat_of_nonneg hH, Int.toNat_of_nonneg hM, Int.toNat_of_nonneg hS]
  · rw [Int.toNat_of_nonneg hH, metricsHours_eq]
  · rw [Int.toNat_of_nonneg hM, metricsMinutes_eq]
  · rw [Int.toNat_of_nonneg hS]; rfl
  · have := metricsMinutes_le u; omega
  · have := metricsSeconds_le u; omega

/-- C1 (witness): the amended pattern at uptime 59.5 s. -/
theorem get_metrics_uptime_human_pattern_witness :
    (initState 0).start_time ≤ ctxHalfMinute.now ∧
    (∃ hh mm ss : ℕ,
      (get_metrics ctxHalfMinute (initState 0)).uptime_human
          = Nat.repr hh ++ "h " ++ Nat.repr mm ++ "m " ++ Nat.repr ss ++ "s" ∧
      ((hh : ℤ)
          = ⌊(get_metrics ctxHalfMinute (initState 0)).uptime_seconds / 3600⌋) ∧
      ((mm : ℤ)
          = ⌊pyMod ((get_metrics ctxHalfMinute (initState 0)).uptime_seconds)
              3600 / 60⌋) ∧
      ((ss : ℤ)
          = roundHalfEven
              (pyMod ((get_metrics ctxHalfMinute (initState 0)).uptime_seconds)
                60)) ∧
      mm ≤ 59 ∧ ss ≤ 60) :=
  ⟨by with_unfolding_all decide,
    get_metrics_uptime_human_pattern ctxHalfMinute (initState 0)
      (by with_unfolding_all decide)⟩

/-- C2 (code bug): for an unmatched path the registered 404 handler
raises an `HTTPException` carrying exactly the claimed detail, but
because it raises from inside an exception handler the exception
escapes the middleware and the server answers a plain 500 instead of
the claimed 404 JSON body. -/
theorem unmatched_path_escapes_handler (c : RuntimeCtx) (st : AppState) :
    not_found_handler ⟨"/nonexistent-path"⟩ ⟨404, .str "Not Found"⟩
        = .error ⟨404, .obj ⟨"Endpoint not found",
            ["/", "/health", "/api/status", "/api/metrics", "/docs"], "/docs"⟩⟩ ∧
    handle c st "/nonexistent-path" = (st, .internalServerError) :=
  ⟨rfl, rfl⟩

/-- C3: over any request sequence with a monotone clock in one process
lifetime, the start time captured at initialization is never written,
every reported uptime equals that request's clock reading minus the
start time, and the uptimes reported by `/health` and `/api/metrics`
are monotonically non-decreasing. -/
theorem uptime_monotone_within_lifetime (t0 : ℚ)
    (rs : List (RuntimeCtx × String))
    (hmono : rs.Pairwise fun a b => a.1.now ≤ b.1.now) :
    (serveTrace (initState t0) rs).1 = initState t0 ∧
    (∀ r ∈ rs, ∀ q, uptimeOf (handle r.1 (initState t0) r.2).2 = some q →
        q = r.1.now - t0) ∧
    ((serveTrace (initState t0) rs).2.filterMap uptimeOf).Pairwise (· ≤ ·) := by
  refine ⟨serveTrace_fst _ _, ?_, ?_⟩
  · intro r _ q hq
    exact uptimeOf_handle r.1 (initState t0) r.2 q hq
  · rw [serveTrace_snd, List.filterMap_map]
    refine pairwise_filterMap_rel _ ?_ rs hmono
    intro a b hab x hx y hy
    simp only [Function.comp] at hx hy
    have hxa := uptimeOf_handle a.1 (initState t0) a.2 x hx
    have hyb := uptimeOf_handle b.1 (initState t0) b.2 y hy
    rw [hxa, hyb]
    exact sub_le_sub_right hab t0

/-- C3 (witness): a concrete two-request lifetime with increasing
clock. -/
theorem uptime_monotone_within_lifetime_witness :
    (traceTwo.Pairwise fun a b => a.1.now ≤ b.1.now) ∧
    ((serveTrace (initState 0) traceTwo).1 = initState 0 ∧
     (∀ r ∈ traceTwo, ∀ q, uptimeOf (handle r.1 (initState 0) r.2).2 = some q →
        q = r.1.now - 0) ∧
     ((serveTrace (initState 0) traceTwo).2.filterMap uptimeOf).Pairwise
        (· ≤ ·)) :=
  ⟨by with_unfolding_all decide,
    uptime_monotone_within_lifetime 0 traceTwo (by with_unfolding_all decide)⟩

/-- C4: `GET /health` answers 200 with `status = "healthy"`, a
non-negative uptime (given a clock at or after start-up), and an
`environment` equal to the ENVIRONMENT variable when set and to
`"development"` when the variable is unset. -/
theorem health_check_response_fields (c : RuntimeCtx) (t0 : ℚ)
    (h : t0 ≤ c.now) :
    handle c (initState t0) "/health"
        = (initState t0, .response 200 (.health (health_check c (initState t0)))) ∧
    (health_check c (initState t0)).status = "healthy" ∧
    0 ≤ (health_check c (initState t0)).uptime ∧
    (∀ v, c.env "ENVIRONMENT" = some v →
        (health_check c (initState t0)).environment = v) ∧
    (c.env "ENVIRONMENT" = none →
        (health_check c (initState t0)).environment = "development") := by
  refine ⟨rfl, rfl, ?_, ?_, ?_⟩
  · show (0:ℚ) ≤ c.now - t0
    linarith
  · intro v hv
    show (c.env "ENVIRONMENT").getD "development" = v
    rw [hv]; rfl
  · intro hv
    show (c.env "ENVIRONMENT").getD "development" = "development"
    rw [hv]; rfl

/-- C4 (witness): the health response in a context with no environment
variables, clock at 5, start time 0. -/
theorem health_check_response_fields_witness :
    (0:ℚ) ≤ ctxNoEnv.now ∧
    (handle ctxNoEnv (initState 0) "/health"
        = (initState 0,
            .response 200 (.health (health_check ctxNoEnv (initState 0)))) ∧
     (health_check ctxNoEnv (initState 0)).status = "healthy" ∧
     0 ≤ (health_check ctxNoEnv (initState 0)).uptime ∧
     (∀ v, ctxNoEnv.env "ENVIRONMENT" = some v →
        (health_check ctxNoEnv (initState 0)).environment = v) ∧
     (ctxNoEnv.env "ENVIRONMENT" = none →
        (health_check ctxNoEnv (initState 0)).environment = "development")) :=
  ⟨by with_unfolding_all decide,
    health_check_response_fields ctxNoEnv 0 (by with_unfolding_all decide)⟩

/-- C5: `GET /api/status` answers 200 with the literal service, status
and version strings, and a `python_version` made of the three
dot-separated decimal components of the runtime version. -/
theorem get_status_response_fields (c : RuntimeCtx) (st : AppState) :
    handle c st "/api/status" = (st, .response 200 (.status (get_status c st))) ∧
    (get_status c st).service = "python-demo-app" ∧
    (get_status c st).status = "running" ∧
    (get_status c st).version = "1.0.0" ∧
    (get_status c st).python_version
        = Nat.repr c.versionMajor ++ "." ++ Nat.repr c.versionMinor ++ "."
            ++ Nat.repr c.versionMicro :=
  ⟨rfl, rfl, rfl, rfl, rfl⟩

/-- C6: `GET /` always answers 200 with version `"1.0.0"` and non-empty
`features` and `tech_stack` lists. -/
theorem root_response_fields (c : RuntimeCtx) (st : AppState) :
    handle c st "/" = (st, .response 200 (.appInfo (root c st))) ∧
    (root c st).version = "1.0.0" ∧
    (root c st).features ≠ [] ∧
    (root c st).tech_stack ≠ [] :=
  ⟨rfl, rfl, by simp [root], by simp [root]⟩

/-- C7: any two invocations of `GET /` produce the identical response,
whatever the clock, environment, host strings or process state. -/
theorem root_response_deterministic (c₁ c₂ : RuntimeCtx)
    (st₁ st₂ : AppState) :
    (handle c₁ st₁ "/").2 = (handle c₂ st₂ "/").2 :=
  rfl

/-- C8: no handler mutates the process state: for every path, matched or
not, the module-level state after the request equals the state before
it. -/
theorem handlers_preserve_process_state (c : RuntimeCtx) (st : AppState)
    (p : String) :
    (handle c st p).1 = st :=
  handle_fst c st p

/-- C9 (counterexample): the hours component of `uptime_human` is floor
division, already integral before the `:.0f` formatting, and is not
bounded by 60: at 61 hours of uptime it renders `"61h 0m 0s"`. -/
theorem claim_components_bounded_by_sixty_false :
    (get_metrics ctxManyHours (initState 0)).uptime_human = "61h 0m 0s" ∧
    metricsHours ((get_metrics ctxManyHours (initState 0)).uptime_seconds) = 61 ∧
    ¬ metricsHours ((get_metrics ctxManyHours (initState 0)).uptime_seconds)
        ≤ 60 := by
  refine ⟨?_, ?_, ?_⟩ <;> with_unfolding_all decide

/-- C9 (amended): the seconds component of `uptime_human` is the `.0f`
rounding (nearest, ties to even) of `uptime mod 60` and lies in 0..60,
reaching 60 exactly when `uptime mod 60 ≥ 59.5`; the minutes component
comes from floor division and lies in 0..59; the hours component is the
floor division of the uptime by 3600 and is unbounded. -/
theorem get_metrics_seconds_rounding (c : RuntimeCtx) (st : AppState) :
    (get_metrics c st).uptime_human
        = toString (metricsHours ((get_metrics c st).uptime_seconds)) ++ "h "
          ++ toString (metricsMinutes ((get_metrics c st).uptime_seconds))
          ++ "m "
          ++ toString (metricsSeconds ((get_metrics c st).uptime_seconds))
          ++ "s" ∧
    0 ≤ metricsSeconds ((get_metrics c st).uptime_seconds) ∧
    metricsSeconds ((get_metrics c st).uptime_seconds) ≤ 60 ∧
    0 ≤ metricsMinutes ((get_metrics c st).uptime_seconds) ∧
    metricsMinutes ((get_metrics c st).uptime_seconds) ≤ 59 ∧
    metricsHours ((get_metrics c st).uptime_seconds)
        = ⌊(get_metrics c st).uptime_seconds / 3600⌋ ∧
    (119/2 ≤ pyMod ((get_metrics c st).uptime_seconds) 60 →
        metricsSeconds ((get_metrics c st).uptime_seconds) = 60) :=
  ⟨rfl, metricsSeconds_nonneg _, metricsSeconds_le _, metricsMinutes_nonneg _,
    metricsMinutes_le _, metricsHours_eq _, metricsSeconds_eq_sixty _⟩

/-- C9 (witness): at uptime 59.5 s the rounded seconds component equals
60. -/
theorem get_metrics_seconds_rounding_witness :
    metricsSeconds ((get_metrics ctxHalfMinute (initState 0)).uptime_seconds)
        = 60 :=
  (get_metrics_seconds_rounding ctxHalfMinute (initState 0)).2.2.2.2.2.2
    (by with_unfolding_all decide)

/-- C10: when ENVIRONMENT is set to the empty string, `/health` reports
the empty string, not the `"development"` default. -/
theorem health_env_empty_not_defaulted (c : RuntimeCtx) (st : AppState)
    (h : c.env "ENVIRONMENT" = some "") :
    (health_check c st).environment = "" ∧
    (health_check c st).environment ≠ "development" := by
  have e : (health_check c st).environment = "" := by
    show (c.env "ENVIRONMENT").getD "development" = ""
    rw [h]; rfl
  exact ⟨e, by rw [e]; decide⟩

/-- C10 (witness): a context whose environment maps every variable to
the empty string. -/
theorem health_env_empty_not_defaulted_witness :
    ctxEmptyEnv.env "ENVIRONMENT" = some "" ∧
    ((health_check ctxEmptyEnv (initState 0)).environment = "" ∧
     (health_check ctxEmptyEnv (initState 0)).environment ≠ "development") :=
  ⟨rfl, health_env_empty_not_defaulted ctxEmptyEnv (initState 0) rfl⟩

end DemoApp
